import Mathlib

/-!
Verification development for the firmups backend (Rust).

The definitions in this file are a shallow embedding of the device-facing
protocol plane and the admin key-lifecycle handlers: the minicbor-style
CBOR primitives used by the codec, the COSE_Encrypt0 envelope codec
(`src/api/cbor/codec/cose.rs`), the per-opcode operation codecs
(`src/api/cbor/codec/operation/*`), the operation handler
(`src/api/cbor/operation_handler.rs`), the COSE handler and key providers
(`src/api/cbor/cose_handler.rs`), the UDP datagram loop body
(`src/api/cbor/mod.rs`), and the device-key creation/deletion transactions
(`src/api/rest/device_key.rs`).

Bytes are modelled as `Nat` (values < 256 where produced by the encoders);
byte strings as `List Nat`; fallible Rust functions as `Except`/`Option`.
The relational catalog is a record of lists of rows; a transaction is an
atomic function from catalog to catalog that leaves the catalog unchanged
when it returns an error.
-/

set_option maxRecDepth 100000

deriving instance DecidableEq for Except

namespace Firmups

/-! ## CBOR primitives (model of the minicbor encoder/decoder)

The decoder functions model `minicbor::Decoder`'s `u8`, `u16`, `u32`,
`bytes`, `array`, `map` item readers: an unsigned reader of width `w`
accepts direct heads (info 0..23) and length prefixes up to width `w`;
`bytes` accepts only definite-length byte strings; `array`/`map` return
`none` for the indefinite-length head.  The encoder functions model
`minicbor::Encoder`'s minimal-length head emission. -/

def beBytes2 (n : Nat) : List Nat := [n / 2 ^ 8 % 256, n % 256]

def beBytes4 (n : Nat) : List Nat :=
  [n / 2 ^ 24 % 256, n / 2 ^ 16 % 256, n / 2 ^ 8 % 256, n % 256]

def beBytes8 (n : Nat) : List Nat :=
  [n / 2 ^ 56 % 256, n / 2 ^ 48 % 256, n / 2 ^ 40 % 256, n / 2 ^ 32 % 256] ++ beBytes4 n

/-- Minimal-length CBOR head for major type `major` and value `n`,
as emitted by `minicbor::Encoder`. -/
def encHead (major n : Nat) : List Nat :=
  if n ≤ 0x17 then [major * 32 + n]
  else if n ≤ 0xff then [major * 32 + 24, n]
  else if n ≤ 0xffff then (major * 32 + 25) :: beBytes2 n
  else if n ≤ 0xffffffff then (major * 32 + 26) :: beBytes4 n
  else (major * 32 + 27) :: beBytes8 n

/-- Model of `minicbor::Decoder::u8`: accepts info 0..23 and the one-byte
length prefix. -/
def decodeU8 : List Nat → Option (Nat × List Nat)
  | b :: bs =>
    if b ≤ 0x17 then some (b, bs)
    else if b = 0x18 then
      match bs with
      | v :: bs => some (v, bs)
      | [] => none
    else none
  | [] => none

/-- Model of `minicbor::Decoder::u16`. -/
def decodeU16 : List Nat → Option (Nat × List Nat)
  | b :: bs =>
    if b ≤ 0x17 then some (b, bs)
    else if b = 0x18 then
      match bs with
      | v :: bs => some (v, bs)
      | [] => none
    else if b = 0x19 then
      match bs with
      | v1 :: v2 :: bs => some (v1 * 2 ^ 8 + v2, bs)
      | _ => none
    else none
  | [] => none

/-- Model of `minicbor::Decoder::u32`. -/
def decodeU32 : List Nat → Option (Nat × List Nat)
  | b :: bs =>
    if b ≤ 0x17 then some (b, bs)
    else if b = 0x18 then
      match bs with
      | v :: bs => some (v, bs)
      | [] => none
    else if b = 0x19 then
      match bs with
      | v1 :: v2 :: bs => some (v1 * 2 ^ 8 + v2, bs)
      | _ => none
    else if b = 0x1a then
      match bs with
      | v1 :: v2 :: v3 :: v4 :: bs =>
        some (v1 * 2 ^ 24 + v2 * 2 ^ 16 + v3 * 2 ^ 8 + v4, bs)
      | _ => none
    else none
  | [] => none

/-- Head reader for a container major type: definite sizes via info 0..27,
and the indefinite-length head (info 31) when `allowIndef` is set.  Models
the head parsing shared by `minicbor::Decoder`'s `bytes`, `array` and
`map`. -/
def decodeTypeHead (major : Nat) (allowIndef : Bool) : List Nat → Option (Option Nat × List Nat)
  | b :: bs =>
    if major * 32 ≤ b ∧ b ≤ major * 32 + 0x17 then some (some (b - major * 32), bs)
    else if b = major * 32 + 24 then
      match bs with
      | v :: bs => some (some v, bs)
      | [] => none
    else if b = major * 32 + 25 then
      match bs with
      | v1 :: v2 :: bs => some (some (v1 * 2 ^ 8 + v2), bs)
      | _ => none
    else if b = major * 32 + 26 then
      match bs with
      | v1 :: v2 :: v3 :: v4 :: bs =>
        some (some (v1 * 2 ^ 24 + v2 * 2 ^ 16 + v3 * 2 ^ 8 + v4), bs)
      | _ => none
    else if b = major * 32 + 27 then
      match bs with
      | v1 :: v2 :: v3 :: v4 :: v5 :: v6 :: v7 :: v8 :: bs =>
        some (some (v1 * 2 ^ 56 + v2 * 2 ^ 48 + v3 * 2 ^ 40 + v4 * 2 ^ 32 +
          v5 * 2 ^ 24 + v6 * 2 ^ 16 + v7 * 2 ^ 8 + v8), bs)
      | _ => none
    else if allowIndef ∧ b = major * 32 + 31 then some (none, bs)
    else none
  | [] => none

def readSlice (n : Nat) (bs : List Nat) : Option (List Nat × List Nat) :=
  if n ≤ bs.length then some (bs.take n, bs.drop n) else none

/-- Model of `minicbor::Decoder::bytes`: a definite-length byte string
(the indefinite form is rejected by `bytes`). -/
def decodeBytes (bs : List Nat) : Option (List Nat × List Nat) :=
  match decodeTypeHead 2 false bs with
  | some (some n, bs) => readSlice n bs
  | _ => none

/-- Model of `minicbor::Decoder::array`: `some n` for a definite length,
`none` for the indefinite head. -/
def decodeArrayHead (bs : List Nat) : Option (Option Nat × List Nat) :=
  decodeTypeHead 4 true bs

/-- Model of `minicbor::Decoder::map`. -/
def decodeMapHead (bs : List Nat) : Option (Option Nat × List Nat) :=
  decodeTypeHead 5 true bs

/-! ### Round-trip lemmas for the primitives -/

theorem decodeU16_encHead (n : Nat) (r : List Nat) (hn : n ≤ 0xffff) :
    decodeU16 (encHead 0 n ++ r) = some (n, r) := by
  by_cases h1 : n ≤ 0x17
  · simp [encHead, decodeU16, h1]
  · by_cases h2 : n ≤ 0xff
    · simp [encHead, decodeU16, h1, h2]
    · simp only [encHead, if_neg h1, if_neg h2, if_pos hn, beBytes2]
      simp only [decodeU16, List.cons_append]
      norm_num
      omega

theorem decodeU32_encHead (n : Nat) (r : List Nat) (hn : n ≤ 0xffffffff) :
    decodeU32 (encHead 0 n ++ r) = some (n, r) := by
  by_cases h1 : n ≤ 0x17
  · simp [encHead, decodeU32, h1]
  · by_cases h2 : n ≤ 0xff
    · simp [encHead, decodeU32, h1, h2]
    · by_cases h3 : n ≤ 0xffff
      · simp only [encHead, if_neg h1, if_neg h2, if_pos h3, beBytes2]
        simp only [decodeU32, List.cons_append]
        norm_num
        omega
      · simp only [encHead, if_neg h1, if_neg h2, if_neg h3, if_pos hn, beBytes4]
        simp only [decodeU32, List.cons_append]
        norm_num
        omega

theorem decodeTypeHead_encHead (major n : Nat) (allowIndef : Bool) (r : List Nat)
    (hn : n < 2 ^ 64) :
    decodeTypeHead major allowIndef (encHead major n ++ r) = some (some n, r) := by
  by_cases h1 : n ≤ 0x17
  · simp only [encHead, if_pos h1, List.cons_append, List.nil_append, decodeTypeHead]
    rw [if_pos ⟨by omega, by omega⟩]
    simp only [Option.some.injEq, Prod.mk.injEq, and_true]
    omega
  · by_cases h2 : n ≤ 0xff
    · simp only [encHead, if_neg h1, if_pos h2, List.cons_append, List.nil_append,
        decodeTypeHead]
      rw [if_neg (by omega)]
      simp only [if_true]
    · by_cases h3 : n ≤ 0xffff
      · simp only [encHead, if_neg h1, if_neg h2, if_pos h3, beBytes2, List.cons_append,
          List.nil_append, decodeTypeHead]
        rw [if_neg (by omega), if_neg (by omega)]
        simp only [if_true]
        simp only [Option.some.injEq, Prod.mk.injEq, and_true]
        omega
      · by_cases h4 : n ≤ 0xffffffff
        · simp only [encHead, if_neg h1, if_neg h2, if_neg h3, if_pos h4, beBytes4,
            List.cons_append, List.nil_append, decodeTypeHead]
          rw [if_neg (by omega), if_neg (by omega), if_neg (by omega)]
          simp only [if_true]
          simp only [Option.some.injEq, Prod.mk.injEq, and_true]
          omega
        · simp only [encHead, if_neg h1, if_neg h2, if_neg h3, if_neg h4, beBytes8, beBytes4,
            List.cons_append, List.nil_append, List.append_assoc, decodeTypeHead]
          rw [if_neg (by omega), if_neg (by omega), if_neg (by omega), if_neg (by omega)]
          simp only [if_true]
          simp only [Option.some.injEq, Prod.mk.injEq, and_true]
          omega

theorem readSlice_append (l r : List Nat) : readSlice l.length (l ++ r) = some (l, r) := by
  simp [readSlice, List.take_left, List.drop_left]

theorem decodeBytes_encHead (l r : List Nat) (hl : l.length < 2 ^ 64) :
    decodeBytes (encHead 2 l.length ++ (l ++ r)) = some (l, r) := by
  rw [show encHead 2 l.length ++ (l ++ r) = encHead 2 l.length ++ (l ++ r) from rfl]
  simp only [decodeBytes]
  rw [decodeTypeHead_encHead 2 l.length false (l ++ r) hl]
  exact readSlice_append l r

theorem decodeArrayHead_encHead (n : Nat) (r : List Nat) (hn : n < 2 ^ 64) :
    decodeArrayHead (encHead 4 n ++ r) = some (some n, r) :=
  decodeTypeHead_encHead 4 n true r hn

theorem decodeMapHead_encHead (n : Nat) (r : List Nat) (hn : n < 2 ^ 64) :
    decodeMapHead (encHead 5 n ++ r) = some (some n, r) :=
  decodeTypeHead_encHead 5 n true r hn

/-! ## AEAD primitives (`src/api/cbor/codec/crypto/`)

The AES-GCM-128 and Ascon-AEAD-128 cores come from the external `aes_gcm`
and `ascon_aead128` crates, which are not part of this repository's
sources.  Modelled from the spec: the spec treats both as black boxes
conforming to a standard AEAD interface (key 16, tag 16, nonce 12 resp.
16), so the core cipher here is an executable stand-in that appends a
16-byte tag over (key, nonce, aad, plaintext) and checks it on decrypt.
The length checks around the core mirror the Rust wrappers in
`crypto_aes.rs` and `crypto_ascon.rs`. -/

inductive CryptoError
  | KeyError
  | NonceError
  | EncryptionFailed
  | DecryptionFailed
deriving DecidableEq

inductive CryptoAlgorithm
  | AesGcm128
  | AsconAead128
deriving DecidableEq

def mixByte (acc b : Nat) : Nat := (acc * 131 + b + 17) % 65536

def aeadTag (key nonce aad pt : List Nat) : List Nat :=
  let seed := ((key ++ nonce ++ aad ++ pt).foldl mixByte 7)
  (List.range 16).map (fun i => (seed + 89 * i) % 256)

def aeadCoreEncrypt (key nonce aad pt : List Nat) : List Nat :=
  pt ++ aeadTag key nonce aad pt

def aeadCoreDecrypt (key nonce aad ct : List Nat) : Option (List Nat) :=
  if ct.length < 16 then none
  else
    let pt := ct.take (ct.length - 16)
    if ct.drop (ct.length - 16) = aeadTag key nonce aad pt then some pt else none

/-- The AEAD capability interface of `crypto::CryptoAead`. -/
structure CryptoAead where
  alg_id : CryptoAlgorithm
  nonce_len : Nat
  tag_len : Nat
  encrypt : List Nat → List Nat → List Nat → List Nat → Except CryptoError (List Nat)
  decrypt : List Nat → List Nat → List Nat → List Nat → Except CryptoError (List Nat)

/-- `CryptoAes128Gcm` (`crypto_aes.rs`): key length 16, nonce length 12,
tag length 16; both directions check the key and nonce lengths before
invoking the cipher core. -/
def CryptoAes128Gcm : CryptoAead where
  alg_id := .AesGcm128
  nonce_len := 12
  tag_len := 16
  encrypt key nonce aad pt :=
    if key.length ≠ 16 then .error .KeyError
    else if nonce.length ≠ 12 then .error .NonceError
    else .ok (aeadCoreEncrypt key nonce aad pt)
  decrypt key nonce aad ct :=
    if key.length ≠ 16 then .error .KeyError
    else if nonce.length ≠ 12 then .error .NonceError
    else
      match aeadCoreDecrypt key nonce aad ct with
      | some pt => .ok pt
      | none => .error .DecryptionFailed

/-- `CryptoAsconAead128` (`crypto_ascon.rs`): key length 16, nonce length
16, tag length 16; `Key::try_from`/`Nonce::try_from` fail on any other
length. -/
def CryptoAsconAead128 : CryptoAead where
  alg_id := .AsconAead128
  nonce_len := 16
  tag_len := 16
  encrypt key nonce aad pt :=
    if key.length ≠ 16 then .error .KeyError
    else if nonce.length ≠ 16 then .error .NonceError
    else .ok (aeadCoreEncrypt key nonce aad pt)
  decrypt key nonce aad ct :=
    if key.length ≠ 16 then .error .KeyError
    else if nonce.length ≠ 16 then .error .NonceError
    else
      match aeadCoreDecrypt key nonce aad ct with
      | some pt => .ok pt
      | none => .error .DecryptionFailed

theorem aeadTag_length (key nonce aad pt : List Nat) : (aeadTag key nonce aad pt).length = 16 := by
  simp [aeadTag]

theorem aeadCore_roundtrip (key nonce aad pt : List Nat) :
    aeadCoreDecrypt key nonce aad (aeadCoreEncrypt key nonce aad pt) = some pt := by
  have hlen : (aeadCoreEncrypt key nonce aad pt).length = pt.length + 16 := by
    simp [aeadCoreEncrypt, aeadTag_length]
  simp only [aeadCoreDecrypt, hlen]
  rw [if_neg (by omega)]
  have htake : (aeadCoreEncrypt key nonce aad pt).take (pt.length + 16 - 16) = pt := by
    simp only [aeadCoreEncrypt, Nat.add_sub_cancel]
    exact List.take_left pt (aeadTag key nonce aad pt)
  have hdrop : (aeadCoreEncrypt key nonce aad pt).drop (pt.length + 16 - 16) =
      aeadTag key nonce aad pt := by
    simp only [aeadCoreEncrypt, Nat.add_sub_cancel]
    exact List.drop_left pt (aeadTag key nonce aad pt)
  rw [htake, hdrop, if_pos rfl]

/-! ## COSE envelope codec (`src/api/cbor/codec/cose.rs`) -/

inductive KeyProviderError
  | KeyMismatch
  | KeyNotFound
  | DbError
deriving DecidableEq

inductive CoseCodecError
  | MissingHeaderField
  | UnknownHeaderKey
  | UnknownCriticalHeader
  | DecryptionError
  | EncryptionError
  | UnknownAlgorithm
  | InvalidMessage
  | RandomnessFailed
deriving DecidableEq

inductive KeyType
  | AesGcm128
  | AsconAead128
deriving DecidableEq

/-- A key provider (`cose::KeyProvider::key_for_device`), modelled as a
pure resolution function. -/
def KeyProv : Type := Nat → KeyType → Except KeyProviderError (List Nat)

inductive ProtectedHeaderKey
  | EncryptionAlgorithm
  | CriticalHeaderList
  | EncryptionNonce
  | DeviceId
  | Opcode
  | Unknown
deriving DecidableEq

/-- `From<u16> for ProtectedHeaderKey`. -/
def ProtectedHeaderKey.fromU16 (header_key : Nat) : ProtectedHeaderKey :=
  if header_key = 1 then .EncryptionAlgorithm
  else if header_key = 2 then .CriticalHeaderList
  else if header_key = 5 then .EncryptionNonce
  else if header_key = 8608 then .DeviceId
  else if header_key = 8633 then .Opcode
  else .Unknown

inductive CoseAlgorithmIdentifier
  | AesGcm128
  | AsconAead128
  | Unknown
deriving DecidableEq

/-- `From<u16> for CoseAlgorithmIdentifier`. -/
def CoseAlgorithmIdentifier.fromU16 (header_key : Nat) : CoseAlgorithmIdentifier :=
  if header_key = 1 then .AesGcm128
  else if header_key = 35 then .AsconAead128
  else .Unknown

/-- The `as u16` discriminants of `CoseAlgorithmIdentifier`
(`AesGcm128 = 1`, `AsconAead128 = 35`, `Unknown` next = 36). -/
def CoseAlgorithmIdentifier.toU16 : CoseAlgorithmIdentifier → Nat
  | .AesGcm128 => 1
  | .AsconAead128 => 35
  | .Unknown => 36

structure ProtectedHeaderDecode where
  device_id : Option Nat
  opcode : Option Nat
  encryption_algorithm : Option CoseAlgorithmIdentifier
  nonce : Option (List Nat)
deriving DecidableEq

structure ProtectedHeader where
  device_id : Nat
  opcode : Nat
  encryption_algorithm : CoseAlgorithmIdentifier
  nonce : List Nat
deriving DecidableEq

/-- `TryFrom<ProtectedHeaderDecode> for ProtectedHeader`: fails with
`MissingHeaderField` unless the four recorded fields are all set. -/
def ProtectedHeader.try_from (src : ProtectedHeaderDecode) :
    Except CoseCodecError ProtectedHeader :=
  match src with
  | ⟨some device_id, some opcode, some encryption_algorithm, some nonce⟩ =>
    .ok ⟨device_id, opcode, encryption_algorithm, nonce⟩
  | _ => .error .MissingHeaderField

def liftCbor {α : Type} : Option α → Except CoseCodecError α
  | some a => .ok a
  | none => .error .InvalidMessage

/-- One iteration of the `decode_protected_header` loop body: read a `u16`
header key and dispatch on `ProtectedHeaderKey::from`. -/
def decodePHEntry (hdr : ProtectedHeaderDecode) (bs : List Nat) :
    Except CoseCodecError (ProtectedHeaderDecode × List Nat) :=
  match decodeU16 bs with
  | none => .error .InvalidMessage
  | some (header_key, bs) =>
    match ProtectedHeaderKey.fromU16 header_key with
    | .DeviceId =>
      match decodeU32 bs with
      | none => .error .InvalidMessage
      | some (v, bs) => .ok ({ hdr with device_id := some v }, bs)
    | .Opcode =>
      match decodeU16 bs with
      | none => .error .InvalidMessage
      | some (v, bs) => .ok ({ hdr with opcode := some v }, bs)
    | .EncryptionAlgorithm =>
      match decodeU16 bs with
      | none => .error .InvalidMessage
      | some (alg, bs) =>
        match CoseAlgorithmIdentifier.fromU16 alg with
        | .AesGcm128 => .ok ({ hdr with encryption_algorithm := some .AesGcm128 }, bs)
        | .AsconAead128 => .ok ({ hdr with encryption_algorithm := some .AsconAead128 }, bs)
        | .Unknown => .error .UnknownAlgorithm
    | .EncryptionNonce =>
      match decodeBytes bs with
      | none => .error .InvalidMessage
      | some (v, bs) => .ok ({ hdr with nonce := some v }, bs)
    | .CriticalHeaderList =>
      match decodeArrayHead bs with
      | none => .error .InvalidMessage
      | some (sz, bs) =>
        match sz with
        | some k =>
          match decodeCritEntries k bs with
          | .ok bs => .ok (hdr, bs)
          | .error e => .error e
        | none =>
          match decodeCritIndef (bs.length + 1) bs with
          | .ok bs => .ok (hdr, bs)
          | .error e => .error e
    | .Unknown => .error .UnknownHeaderKey
where
  /-- The inner critical-header-list loop for a fixed-size array: `k`
  entries, each a `u16` that must map to `DeviceId` or `Opcode`. -/
  decodeCritEntries : Nat → List Nat → Except CoseCodecError (List Nat)
    | 0, bs => .ok bs
    | k + 1, bs =>
      match decodeU16 bs with
      | none => .error .InvalidMessage
      | some (header_id, bs) =>
        match ProtectedHeaderKey.fromU16 header_id with
        | .DeviceId => decodeCritEntries k bs
        | .Opcode => decodeCritEntries k bs
        | _ => .error .UnknownCriticalHeader
  /-- The inner critical-header-list loop for an indefinite-length array:
  iterate until the Break byte; each iteration consumes at least one byte,
  so the fuel `input length + 1` never runs out on the paths the source
  can take. -/
  decodeCritIndef : Nat → List Nat → Except CoseCodecError (List Nat)
    | 0, _ => .error .InvalidMessage
    | _ + 1, [] => .error .InvalidMessage
    | fuel + 1, b :: bs =>
      if b = 0xff then .ok bs
      else
        match decodeU16 (b :: bs) with
        | none => .error .InvalidMessage
        | some (header_id, bs) =>
          match ProtectedHeaderKey.fromU16 header_id with
          | .DeviceId => decodeCritIndef fuel bs
          | .Opcode => decodeCritIndef fuel bs
          | _ => .error .UnknownCriticalHeader

/-- The `decode_protected_header` loop over a fixed-size map: exactly
`k = map size` iterations of the entry body. -/
def decodePHEntries : Nat → ProtectedHeaderDecode → List Nat →
    Except CoseCodecError (ProtectedHeaderDecode × List Nat)
  | 0, hdr, bs => .ok (hdr, bs)
  | k + 1, hdr, bs =>
    match decodePHEntry hdr bs with
    | .error e => .error e
    | .ok (hdr, bs) => decodePHEntries k hdr bs

/-- The `decode_protected_header` loop over an indefinite-length map:
iterate the entry body until the Break byte.  As with the critical-header
loop, each iteration consumes at least one byte, so fuel
`input length + 1` never runs out on paths the source can take. -/
def decodePHIndef : Nat → ProtectedHeaderDecode → List Nat →
    Except CoseCodecError (ProtectedHeaderDecode × List Nat)
  | 0, _, _ => .error .InvalidMessage
  | _ + 1, _, [] => .error .InvalidMessage
  | fuel + 1, hdr, b :: bs =>
    if b = 0xff then .ok (hdr, bs)
    else
      match decodePHEntry hdr (b :: bs) with
      | .error e => .error e
      | .ok (hdr, bs) => decodePHIndef fuel hdr bs

/-- `decode_protected_header`: parse the protected-header map, fixed or
indefinite length, dispatching each entry on its `u16` key. -/
def decode_protected_header (protected_header_buf : List Nat) :
    Except CoseCodecError ProtectedHeaderDecode :=
  match decodeMapHead protected_header_buf with
  | none => .error .InvalidMessage
  | some (map_size, bs) =>
    let init : ProtectedHeaderDecode := ⟨none, none, none, none⟩
    match map_size with
    | some k =>
      match decodePHEntries k init bs with
      | .error e => .error e
      | .ok (hdr, _) => .ok hdr
    | none =>
      match decodePHIndef (bs.length + 1) init bs with
      | .error e => .error e
      | .ok (hdr, _) => .ok hdr

/-- `create_aad`: serialization of `array(3, "Encrypt0",
protected_header_serialized, bytes(0))`.  The string `"Encrypt0"` is the
eight ASCII bytes below. -/
def create_aad (protected_header_buf : List Nat) : List Nat :=
  encHead 4 3 ++
  (encHead 3 8 ++ [0x45, 0x6e, 0x63, 0x72, 0x79, 0x70, 0x74, 0x30]) ++
  (encHead 2 protected_header_buf.length ++ protected_header_buf) ++
  encHead 2 0

/-- `encode_protected_header`: fixed-size 5-entry map in the source's
emission order (algorithm, device id, opcode, nonce, critical list). -/
def encode_protected_header (protected_header : ProtectedHeader) : List Nat :=
  encHead 5 5 ++
  (encHead 0 1 ++ encHead 0 protected_header.encryption_algorithm.toU16) ++
  (encHead 0 8608 ++ encHead 0 protected_header.device_id) ++
  (encHead 0 8633 ++ encHead 0 protected_header.opcode) ++
  (encHead 0 5 ++ (encHead 2 protected_header.nonce.length ++ protected_header.nonce)) ++
  (encHead 0 2 ++ encHead 4 2 ++ encHead 0 8608 ++ encHead 0 8633)

/-- Result of `decode_msg` (the Rust function reports `key_type`,
`device_id` and `opcode` through out-parameters and returns the
plaintext). -/
structure DecodedMsg where
  key_type : KeyType
  device_id : Nat
  opcode : Nat
  plaintext : List Nat
deriving DecidableEq

def cryptoAlgFor : KeyType → CryptoAead
  | .AesGcm128 => CryptoAes128Gcm
  | .AsconAead128 => CryptoAsconAead128

/-- `cose::decode_msg`: parse the outer 3-element array, decode and
validate the protected header, check the nonce length, the empty
unprotected map and the ciphertext length, resolve the key and decrypt
with the AAD over the received protected-header bytes verbatim. -/
def decode_msg (key_provider : KeyProv) (msg : List Nat) :
    Except CoseCodecError DecodedMsg :=
  match decodeArrayHead msg with
  | none => .error .InvalidMessage
  | some (asz, bs) =>
    if asz ≠ some 3 then .error .InvalidMessage
    else
      match decodeBytes bs with
      | none => .error .InvalidMessage
      | some (protected_header_buffer, bs) =>
        match decode_protected_header protected_header_buffer with
        | .error e => .error e
        | .ok protected_header_decode =>
          match ProtectedHeader.try_from protected_header_decode with
          | .error e => .error e
          | .ok protected_header =>
            match protected_header.encryption_algorithm with
            | .Unknown => .error .UnknownAlgorithm
            | alg_id =>
              let crypto_key_type : KeyType :=
                match alg_id with
                | .AesGcm128 => .AesGcm128
                | _ => .AsconAead128
              let crypto_alg := cryptoAlgFor crypto_key_type
              if protected_header.nonce.length ≠ crypto_alg.nonce_len then
                .error .InvalidMessage
              else
                match decodeMapHead bs with
                | none => .error .InvalidMessage
                | some (msz, bs) =>
                  if msz ≠ some 0 then .error .InvalidMessage
                  else
                    match decodeBytes bs with
                    | none => .error .InvalidMessage
                    | some (encrypted_operation_buffer, _) =>
                      if encrypted_operation_buffer.length < crypto_alg.tag_len then
                        .error .InvalidMessage
                      else
                        match key_provider protected_header.device_id crypto_key_type with
                        | .error _ => .error .DecryptionError
                        | .ok key =>
                          match crypto_alg.decrypt key protected_header.nonce
                              (create_aad protected_header_buffer)
                              encrypted_operation_buffer with
                          | .error _ => .error .DecryptionError
                          | .ok pt =>
                            .ok ⟨crypto_key_type, protected_header.device_id,
                              protected_header.opcode, pt⟩

/-- `cose::encode_msg`.  The Rust function draws the nonce from
`getrandom`; the nonce is passed here as an explicit argument standing
for that `nonce_len`-byte random value (encode is nondeterministic in the
nonce only). -/
def encode_msg (key_provider : KeyProv) (key_type : KeyType) (device_id operation_id : Nat)
    (operation : List Nat) (nonce : List Nat) : Except CoseCodecError (List Nat) :=
  let crypto_alg := cryptoAlgFor key_type
  let protected_header : ProtectedHeader :=
    ⟨device_id, operation_id,
      match crypto_alg.alg_id with
      | .AesGcm128 => .AesGcm128
      | .AsconAead128 => .AsconAead128,
      nonce⟩
  let protected_header_buf := encode_protected_header protected_header
  match key_provider device_id key_type with
  | .error _ => .error .EncryptionError
  | .ok key =>
    match crypto_alg.encrypt key nonce (create_aad protected_header_buf) operation with
    | .error _ => .error .EncryptionError
    | .ok ct =>
      .ok (encHead 4 3 ++ (encHead 2 protected_header_buf.length ++ protected_header_buf) ++
        encHead 5 0 ++ (encHead 2 ct.length ++ ct))

/-! ## Catalog data model (`src/db/models.rs`, `src/db/schema.rs`)

Rust `i32`/`i64` columns are modelled as `Int`; the `u32 as i32` and
`i32 as u32` casts at the protocol boundary are the two-complement
reinterpretations below. -/

def i32ofU32 (n : Nat) : Int := if n < 2 ^ 31 then (n : Int) else (n : Int) - 2 ^ 32

def u32ofI32 (i : Int) : Nat := (i % 2 ^ 32).toNat

inductive DeviceStatus
  | Active
  | Inactive
  | Maintenance
deriving DecidableEq

/-- The `as u8` discriminants (`ACTIVE = 0`, `INACTIVE = 1`,
`MAINTENANCE = 2` in `models.rs`). -/
def DeviceStatus.toU8 : DeviceStatus → Nat
  | .Active => 0
  | .Inactive => 1
  | .Maintenance => 2

/-- `TryFrom<u8> for DeviceStatus` in `operation_handler.rs`. -/
def DeviceStatus.try_from (src : Nat) : Option DeviceStatus :=
  if src = 0 then some .Active
  else if src = 1 then some .Inactive
  else if src = 2 then some .Maintenance
  else none

inductive KeyStatus
  | ACTIVE
  | NEXT
  | EXPIRED
deriving DecidableEq

namespace Db

inductive KeyType
  | LIGHTWEIGHT
  | TLS
deriving DecidableEq

inductive CryptoAlgorithm
  | AesGcm128
  | AsconAead128
deriving DecidableEq

end Db

structure Device where
  id : Int
  name : String
  type_ : Int
  firmware : Option Int
  desired_firmware : Int
  status : DeviceStatus
deriving DecidableEq

structure Firmware where
  id : Int
  name : String
  version : String
  file_id : String
  size : Int
  sha256 : String
deriving DecidableEq

structure DeviceKey where
  id : Int
  device : Int
  key_type : Db.KeyType
  status : KeyStatus
deriving DecidableEq

structure LightweightKeyDetails where
  id : Int
  device_key : Int
  algorithm : Db.CryptoAlgorithm
  key : List Nat
deriving DecidableEq

structure TlsKeyDetails where
  id : Int
  device_key : Int
  valid_from : Int
  valid_to : Int
deriving DecidableEq

/-- `UpdateDevice` (diesel `AsChangeset`): a `none` field is left
untouched by the update. -/
structure UpdateDevice where
  name : Option String
  type_ : Option Int
  firmware : Option Int
  desired_firmware : Option Int
  status : Option DeviceStatus
deriving DecidableEq

def applyUpdateDevice (row : Device) (upd : UpdateDevice) : Device :=
  { id := row.id
    name := upd.name.getD row.name
    type_ := upd.type_.getD row.type_
    firmware := match upd.firmware with
      | some f => some f
      | none => row.firmware
    desired_firmware := upd.desired_firmware.getD row.desired_firmware
    status := upd.status.getD row.status }

/-- The relational catalog: one list of rows per table, plus the serial
id sequences of the two key tables.  A transaction is modelled as an
atomic function that returns the original catalog unchanged on error. -/
structure Catalog where
  devices : List Device
  firmwares : List Firmware
  device_keys : List DeviceKey
  lightweight_key_details : List LightweightKeyDetails
  tls_key_details : List TlsKeyDetails
  next_key_id : Int
  next_lw_id : Int
deriving DecidableEq

/-! ## Operation codecs (`src/api/cbor/codec/operation/`) -/

inductive OperationError
  | InvalidOperation
  | DecodingError
  | EncodingError
  | UnknownParameter
  | DeviceNotFound
  | FirmwareNotFound
  | InternalError
deriving DecidableEq

def OperationError.toU16 : OperationError → Nat
  | .InvalidOperation => 0
  | .DecodingError => 1
  | .EncodingError => 2
  | .UnknownParameter => 3
  | .DeviceNotFound => 4
  | .FirmwareNotFound => 5
  | .InternalError => 6

/-- `From<u16> for OperationError`: codes outside the set decode as
`InvalidOperation`. -/
def OperationError.fromU16 (value : Nat) : OperationError :=
  if value = 0 then .InvalidOperation
  else if value = 1 then .DecodingError
  else if value = 2 then .EncodingError
  else if value = 3 then .UnknownParameter
  else if value = 4 then .DeviceNotFound
  else if value = 5 then .FirmwareNotFound
  else if value = 6 then .InternalError
  else .InvalidOperation

inductive OperationType
  | Invalid
  | ErrorOp
  | GetParameterRequest
  | GetParameterResponse
  | SetParameterRequest
  | SetParameterResponse
  | GetDeviceInfoRequest
  | GetDeviceInfoResponse
  | SetDeviceInfoRequest
  | SetDeviceInfoResponse
  | GetFirmwareRequest
  | GetFirmwareResponse
deriving DecidableEq

def OperationType.toU16 : OperationType → Nat
  | .Invalid => 0
  | .ErrorOp => 1
  | .GetParameterRequest => 2
  | .GetParameterResponse => 3
  | .SetParameterRequest => 4
  | .SetParameterResponse => 5
  | .GetDeviceInfoRequest => 6
  | .GetDeviceInfoResponse => 7
  | .SetDeviceInfoRequest => 8
  | .SetDeviceInfoResponse => 9
  | .GetFirmwareRequest => 10
  | .GetFirmwareResponse => 11

def OperationType.fromU16 (value : Nat) : OperationType :=
  if value = 1 then .ErrorOp
  else if value = 2 then .GetParameterRequest
  else if value = 3 then .GetParameterResponse
  else if value = 4 then .SetParameterRequest
  else if value = 5 then .SetParameterResponse
  else if value = 6 then .GetDeviceInfoRequest
  else if value = 7 then .GetDeviceInfoResponse
  else if value = 8 then .SetDeviceInfoRequest
  else if value = 9 then .SetDeviceInfoResponse
  else if value = 10 then .GetFirmwareRequest
  else if value = 11 then .GetFirmwareResponse
  else .Invalid

structure GetDeviceInfoRequest where
  device_id : Nat
deriving DecidableEq

/-- `decode_get_device_info_request`: `array(1, device_id:uint32)`. -/
def decode_get_device_info_request (operation : List Nat) : Option GetDeviceInfoRequest :=
  match decodeArrayHead operation with
  | none => none
  | some (sz, bs) =>
    if sz ≠ some 1 then none
    else
      match decodeU32 bs with
      | none => none
      | some (v, _) => some ⟨v⟩

structure GetDeviceInfoResponse where
  firmware : Option Nat
  desired_firmware : Nat
  status : Nat
deriving DecidableEq

/-- `encode_get_device_info_response`: `array(3)`, with CBOR null
(`0xf6`) when the current firmware is absent. -/
def encode_get_device_info_response (r : GetDeviceInfoResponse) : List Nat :=
  encHead 4 3 ++
  (match r.firmware with
   | some fw => encHead 0 fw
   | none => [0xf6]) ++
  encHead 0 r.desired_firmware ++ encHead 0 r.status

structure SetDeviceInfoRequest where
  firmware : Nat
  status : Nat
deriving DecidableEq

/-- `decode_set_device_info_request`: `array(2, firmware:uint32, status:uint8)`. -/
def decode_set_device_info_request (operation : List Nat) : Option SetDeviceInfoRequest :=
  match decodeArrayHead operation with
  | none => none
  | some (sz, bs) =>
    if sz ≠ some 2 then none
    else
      match decodeU32 bs with
      | none => none
      | some (fw, bs) =>
        match decodeU8 bs with
        | none => none
        | some (st, _) => some ⟨fw, st⟩

structure SetDeviceInfoResponse where
  firmware : Nat
  desired_firmware : Nat
  status : Nat
deriving DecidableEq

def encode_set_device_info_response (r : SetDeviceInfoResponse) : List Nat :=
  encHead 4 3 ++ encHead 0 r.firmware ++ encHead 0 r.desired_firmware ++ encHead 0 r.status

structure GetFirmwareRequest where
  firmware : Nat
  offset : Nat
  length : Nat
deriving DecidableEq

/-- `decode_get_firmware_request`:
`array(3, firmware:uint32, offset:uint32, length:uint32)`. -/
def decode_get_firmware_request (operation : List Nat) : Option GetFirmwareRequest :=
  match decodeArrayHead operation with
  | none => none
  | some (sz, bs) =>
    if sz ≠ some 3 then none
    else
      match decodeU32 bs with
      | none => none
      | some (fw, bs) =>
        match decodeU32 bs with
        | none => none
        | some (off, bs) =>
          match decodeU32 bs with
          | none => none
          | some (len, _) => some ⟨fw, off, len⟩

structure GetFirmwareResponse where
  firmware : Nat
  offset : Nat
  length : Nat
  data : List Nat
deriving DecidableEq

/-- One all-or-nothing write into a `minicbor::encode::write::Cursor`
over a fixed buffer of capacity `cap`: a write that does not fit returns
`EndOfSlice` and leaves the cursor position unchanged. -/
def cursorPut (cap : Nat) (st bs : List Nat) : List Nat :=
  if st.length + bs.length ≤ cap then st ++ bs else st

/-- `encode_get_firmware_response`: writes `array(4, firmware, offset,
length, data)` into a `Cursor<[u8; 1024]>`, discarding each write's
result (`let _ = enc...`), and returns the first `position` bytes.  Each
CBOR head is modelled as one write; the data bytes are a separate
write. -/
def encode_get_firmware_response (r : GetFirmwareResponse) : List Nat :=
  let st := cursorPut 1024 [] (encHead 4 4)
  let st := cursorPut 1024 st (encHead 0 r.firmware)
  let st := cursorPut 1024 st (encHead 0 r.offset)
  let st := cursorPut 1024 st (encHead 0 r.length)
  let st := cursorPut 1024 st (encHead 2 r.data.length)
  cursorPut 1024 st r.data

/-- `encode_operation_error`: `array(1, code:uint16)`. -/
def encode_operation_error (error : OperationError) : List Nat :=
  encHead 4 1 ++ encHead 0 error.toU16

/-! ## Operation handler (`src/api/cbor/operation_handler.rs`)

The handler runs against the catalog and the firmware blob directory
(`files` maps a path to a file's bytes).  The database connection is
modelled as always available; the foreign-key constraints checked are
those the touched columns can violate (`fk_firmware` for the
SetDeviceInfo changeset).  File `seek(Start(offset))` always succeeds and
a single `read` returns all available bytes up to the buffer length. -/

structure CborApiConfig where
  data_storage_location : String

def Files : Type := List (String × List Nat)

def fileOpen (files : Files) (path : String) : Option (List Nat) :=
  (files.find? (fun f => decide (f.1 = path))).map (fun f => f.2)

inductive DbUpdateError
  | NotFound
  | ForeignKeyViolation
deriving DecidableEq

/-- `diesel::update(device.find(id)).set(&payload).returning(..)`:
update the row with primary key `id`, failing with `NotFound` when it
does not exist and with a foreign-key violation when the changeset's new
`firmware` value references no firmware row. -/
def updateDeviceFind (st : Catalog) (id : Int) (payload : UpdateDevice) :
    Except DbUpdateError (Catalog × Device) :=
  match st.devices.find? (fun d => decide (d.id = id)) with
  | none => .error .NotFound
  | some row =>
    let fkOk : Bool :=
      match payload.firmware with
      | some f => st.firmwares.any (fun fw => decide (fw.id = f))
      | none => true
    if fkOk then
      let row' := applyUpdateDevice row payload
      .ok ({ st with
        devices := st.devices.map (fun d => if d.id = id then row' else d) }, row')
    else .error .ForeignKeyViolation

def handle_error_operation (error : OperationError) : Nat × List Nat :=
  (OperationType.ErrorOp.toU16, encode_operation_error error)

/-- `OperationHandler::handle_operation`: dispatch on the opcode; the
three implemented request opcodes are 6, 8 and 10; everything else is an
`InvalidOperation` error response.  Returns the catalog after the
operation together with `(response opcode, response plaintext)`. -/
def handle_operation (config : CborApiConfig) (st : Catalog) (files : Files)
    (device_id opcode : Nat) (operation : List Nat) : Catalog × (Nat × List Nat) :=
  match OperationType.fromU16 opcode with
  | .GetDeviceInfoRequest =>
    match decode_get_device_info_request operation with
    | none => (st, handle_error_operation .DecodingError)
    | some req =>
      match st.devices.find? (fun d => decide (d.id = i32ofU32 req.device_id)) with
      | none => (st, handle_error_operation .DeviceNotFound)
      | some result =>
        let response : GetDeviceInfoResponse :=
          ⟨result.firmware.map u32ofI32, u32ofI32 result.desired_firmware, result.status.toU8⟩
        (st, (OperationType.GetDeviceInfoResponse.toU16,
          encode_get_device_info_response response))
  | .SetDeviceInfoRequest =>
    match decode_set_device_info_request operation with
    | none => (st, handle_error_operation .DecodingError)
    | some req =>
      match DeviceStatus.try_from req.status with
      | none => (st, handle_error_operation .InvalidOperation)
      | some ds =>
        let payload : UpdateDevice :=
          { name := none, type_ := none, firmware := some (i32ofU32 req.firmware),
            desired_firmware := none, status := some ds }
        match updateDeviceFind st (i32ofU32 device_id) payload with
        | .error _ => (st, handle_error_operation .InternalError)
        | .ok (st', result) =>
          match result.firmware with
          | none => (st', handle_error_operation .InternalError)
          | some fw =>
            let response : SetDeviceInfoResponse :=
              ⟨u32ofI32 fw, u32ofI32 result.desired_firmware, result.status.toU8⟩
            (st', (OperationType.SetDeviceInfoResponse.toU16,
              encode_set_device_info_response response))
  | .GetFirmwareRequest =>
    match decode_get_firmware_request operation with
    | none => (st, handle_error_operation .DecodingError)
    | some req =>
      match st.firmwares.find? (fun f => decide (f.id = i32ofU32 req.firmware)) with
      | none => (st, handle_error_operation .FirmwareNotFound)
      | some result =>
        let path := config.data_storage_location ++ "/firmware/" ++ result.file_id ++ ".bin"
        match fileOpen files path with
        | none => (st, handle_error_operation .InternalError)
        | some content =>
          if 1024 * 1024 < req.length then (st, handle_error_operation .InvalidOperation)
          else
            let buf := (content.drop req.offset).take req.length
            let response : GetFirmwareResponse :=
              ⟨u32ofI32 result.id, req.offset, buf.length, buf⟩
            (st, (OperationType.GetFirmwareResponse.toU16,
              encode_get_firmware_response response))
  | _ => (st, handle_error_operation .InvalidOperation)

/-! ## COSE handler and key providers (`src/api/cbor/cose_handler.rs`) -/

inductive CoseHandlerError
  | DecodingError
  | EncodingError
deriving DecidableEq

/-- `DbKeyProvider::key_for_device`: inner-join `device_key` with
`lightweight_key_details` on `details.device_key = device_key.id`,
filter on `device = device_id as i32` and `status = ACTIVE`, take the
first pair; require the `LIGHTWEIGHT` key type and the algorithm matching
the requested key type. -/
def db_key_for_device (pool : Catalog) (device_id : Nat) (key_type : KeyType) :
    Except KeyProviderError (List Nat) :=
  let joined := (pool.device_keys.filter
      (fun dk => decide (dk.device = i32ofU32 device_id ∧ dk.status = KeyStatus.ACTIVE))).findSome?
    (fun dk => (pool.lightweight_key_details.find?
      (fun det => decide (det.device_key = dk.id))).map (fun det => (dk, det)))
  match joined with
  | none => .error .KeyNotFound
  | some (active_key, details) =>
    if active_key.key_type ≠ Db.KeyType.LIGHTWEIGHT then .error .KeyMismatch
    else
      match details.algorithm, key_type with
      | .AesGcm128, .AesGcm128 => .ok details.key
      | .AsconAead128, .AsconAead128 => .ok details.key
      | _, _ => .error .KeyMismatch

/-- `StaticKeyProvider`: serves one fixed key for one (device, key type)
pair. -/
def static_key_provider (device_id : Nat) (key_type : KeyType) (key_bytes : List Nat) :
    KeyProv :=
  fun d t =>
    if d ≠ device_id then .error .KeyNotFound
    else if t ≠ key_type then .error .KeyMismatch
    else .ok key_bytes

/-- `CoseHandler`: holds the shared pool and, after a successful decode,
the device id, the retained key bytes and the key type for the
response. -/
structure CoseHandler where
  shared_pool : Catalog
  device_id : Option Nat
  key_bytes : Option (List Nat)
  key_type : Option KeyType
deriving DecidableEq

def CoseHandler.new (shared_pool : Catalog) : CoseHandler :=
  ⟨shared_pool, none, none, none⟩

/-- `CoseHandler::decode_msg`: run `cose::decode_msg` with a fresh
`DbKeyProvider` over the shared pool and retain the provider's resolved
key bytes, the device id and the key type.  The provider's retained copy
equals the result of its single successful `key_for_device` call,
re-evaluated here since the provider is deterministic in the pool. -/
def CoseHandler.decodeMsg (h : CoseHandler) (msg : List Nat) :
    Except CoseHandlerError (CoseHandler × DecodedMsg) :=
  match decode_msg (db_key_for_device h.shared_pool) msg with
  | .error _ => .error .DecodingError
  | .ok res =>
    match db_key_for_device h.shared_pool res.device_id res.key_type with
    | .error _ => .error .DecodingError
    | .ok k =>
      .ok ({ h with
        device_id := some res.device_id
        key_bytes := some k
        key_type := some res.key_type }, res)

/-- `CoseHandler::encode_msg`: require the stored device id, key bytes
and key type; encode through a `StaticKeyProvider` holding exactly those
key bytes — no catalog access. -/
def CoseHandler.encodeMsg (h : CoseHandler) (operation_id : Nat) (operation : List Nat)
    (nonce : List Nat) : Except CoseHandlerError (List Nat) :=
  match h.device_id, h.key_bytes, h.key_type with
  | some device_id, some key_bytes, some key_type =>
    match encode_msg (static_key_provider device_id key_type key_bytes) key_type device_id
        operation_id operation nonce with
    | .ok res => .ok res
    | .error _ => .error .EncodingError
  | _, _, _ => .error .EncodingError

/-! ## Datagram loop body (`src/api/cbor/mod.rs`) -/

/-- The body of one `recv_from` arm of `udp_loop`: construct a fresh
`CoseHandler`, decode-and-decrypt; on failure drop the datagram (no
response); dispatch to `handle_operation`; encode the response; on
failure drop; otherwise the datagram to send back to the source.  The
`nonce` argument stands for the random nonce drawn during response
encoding. -/
def udp_iteration (config : CborApiConfig) (pool : Catalog) (files : Files)
    (datagram : List Nat) (nonce : List Nat) : Catalog × Option (List Nat) :=
  match (CoseHandler.new pool).decodeMsg datagram with
  | .error _ => (pool, none)
  | .ok (h, res) =>
    let step := handle_operation config pool files res.device_id res.opcode res.plaintext
    match h.encodeMsg step.2.1 step.2.2 nonce with
    | .error _ => (step.1, none)
    | .ok response_buf => (step.1, some response_buf)

/-! ## Device-key lifecycle transactions (`src/api/rest/device_key.rs`)

Each handler runs inside a database transaction taken under a
device-scoped advisory lock; the transaction is modelled as an atomic
step that leaves the catalog unchanged on error.  The HTTP error classes
that matter to the modelled paths are below. -/

inductive ApiErrorKind
  | BadRequest
  | Conflict
  | NotFound
  | Internal
deriving DecidableEq

structure LightweightKeyDetailsPayload where
  algorithm : Db.CryptoAlgorithm
  key : List Nat
deriving DecidableEq

structure TlsKeyDetailsPayload where
  valid_from : Int
  valid_to : Int
deriving DecidableEq

inductive NewDeviceKeyKind
  | Lightweight (details : LightweightKeyDetailsPayload)
  | Tls (details : TlsKeyDetailsPayload)
deriving DecidableEq

inductive DeviceKeyKind
  | Lightweight (details : LightweightKeyDetailsPayload)
  | Tls (details : TlsKeyDetailsPayload)
deriving DecidableEq

structure DeviceKeyPayload where
  id : Int
  status : KeyStatus
  kind : DeviceKeyKind
deriving DecidableEq

/-- `create_device_key`: validate the key length for the algorithm
(Ascon-AEAD-128 requires 16, AES-GCM-128 requires 12 in the source),
reject with `Conflict` when a NEXT key exists, make the new key ACTIVE
exactly when no ACTIVE key exists, insert the `device_key` row (failing
with 404 when the device does not exist — `device_key_device_fkey`) and
then the `lightweight_key_details` row; the TLS branch aborts the
transaction with `Conflict` after the first insert, rolling it back. -/
def create_device_key (st : Catalog) (device_id : Int) (payload : NewDeviceKeyKind) :
    Except ApiErrorKind (Catalog × DeviceKeyPayload) :=
  let validation : Except ApiErrorKind Unit :=
    match payload with
    | .Lightweight det =>
      match det.algorithm with
      | .AsconAead128 => if det.key.length ≠ 16 then .error .BadRequest else .ok ()
      | .AesGcm128 => if det.key.length ≠ 12 then .error .BadRequest else .ok ()
    | .Tls _ => .ok ()
  match validation with
  | .error e => .error e
  | .ok _ =>
    let next_exists := st.device_keys.any
      (fun k => decide (k.device = device_id ∧ k.status = KeyStatus.NEXT))
    if next_exists then .error .Conflict
    else
      let active_exists := st.device_keys.any
        (fun k => decide (k.device = device_id ∧ k.status = KeyStatus.ACTIVE))
      let key_status := if active_exists then KeyStatus.NEXT else KeyStatus.ACTIVE
      let key_type :=
        match payload with
        | .Lightweight _ => Db.KeyType.LIGHTWEIGHT
        | .Tls _ => Db.KeyType.TLS
      if ¬ st.devices.any (fun d => decide (d.id = device_id)) then .error .NotFound
      else
        let device_key : DeviceKey := ⟨st.next_key_id, device_id, key_type, key_status⟩
        let st1 := { st with
          device_keys := st.device_keys ++ [device_key]
          next_key_id := st.next_key_id + 1 }
        match payload with
        | .Lightweight details =>
          let ins : LightweightKeyDetails :=
            ⟨st1.next_lw_id, device_key.id, details.algorithm, details.key⟩
          let st2 := { st1 with
            lightweight_key_details := st1.lightweight_key_details ++ [ins]
            next_lw_id := st1.next_lw_id + 1 }
          .ok (st2, ⟨device_key.id, device_key.status, .Lightweight ⟨ins.algorithm, ins.key⟩⟩)
        | .Tls _ => .error .Conflict

/-- `delete_device_key`: refuse to delete an ACTIVE key (`Conflict`);
otherwise find the key with its details (404 when absent), delete the
`device_key` row by id (the details rows cascade), and report the deleted
key. -/
def delete_device_key (st : Catalog) (device_id path_id : Int) :
    Except ApiErrorKind (Catalog × DeviceKeyPayload) :=
  let is_active := st.device_keys.any
    (fun k => decide (k.id = path_id ∧ k.device = device_id ∧ k.status = KeyStatus.ACTIVE))
  if is_active then .error .Conflict
  else
    match st.device_keys.find? (fun k => decide (k.id = path_id ∧ k.device = device_id)) with
    | none => .error .NotFound
    | some key =>
      let kindOpt : Option DeviceKeyKind :=
        match key.key_type with
        | .LIGHTWEIGHT =>
          (st.lightweight_key_details.find? (fun det => decide (det.device_key = key.id))).map
            (fun det => .Lightweight ⟨det.algorithm, det.key⟩)
        | .TLS =>
          (st.tls_key_details.find? (fun det => decide (det.device_key = key.id))).map
            (fun det => .Tls ⟨det.valid_from, det.valid_to⟩)
      match kindOpt with
      | none => .error .Internal
      | some kind =>
        let st' := { st with
          device_keys := st.device_keys.filter (fun k => decide (k.id ≠ path_id))
          lightweight_key_details :=
            st.lightweight_key_details.filter (fun det => decide (det.device_key ≠ path_id))
          tls_key_details :=
            st.tls_key_details.filter (fun det => decide (det.device_key ≠ path_id)) }
        .ok (st', ⟨key.id, key.status, kind⟩)

/-! ## Concrete demonstration data

Small catalogs, keys and messages used to instantiate the theorems below
on concrete inputs. -/

def demoKey : List Nat := [0, 1, 2, 3, 4, 5, 6, 7, 8, 9, 10, 11, 12, 13, 14, 15]

def demoKey12 : List Nat := [0, 1, 2, 3, 4, 5, 6, 7, 8, 9, 10, 11]

def demoNonce12 : List Nat := [1, 2, 3, 4, 5, 6, 7, 8, 9, 10, 11, 12]

/-- Plaintext of a GetDeviceInfoRequest for device 42: `array(1, 42)`. -/
def demoPlain : List Nat := encHead 4 1 ++ encHead 0 42

/-- A protected header whose 4-entry map carries algorithm, device id,
opcode and nonce but omits the critical-headers entry (label 2). -/
def headerNoCrit : List Nat :=
  encHead 5 4 ++
  (encHead 0 1 ++ encHead 0 1) ++
  (encHead 0 8608 ++ encHead 0 42) ++
  (encHead 0 8633 ++ encHead 0 6) ++
  (encHead 0 5 ++ (encHead 2 demoNonce12.length ++ demoNonce12))

def ctNoCrit : List Nat :=
  aeadCoreEncrypt demoKey demoNonce12 (create_aad headerNoCrit) demoPlain

/-- A complete envelope around `headerNoCrit`, encrypted under
`demoKey`. -/
def envelopeNoCrit : List Nat :=
  encHead 4 3 ++ (encHead 2 headerNoCrit.length ++ headerNoCrit) ++
  encHead 5 0 ++ (encHead 2 ctNoCrit.length ++ ctNoCrit)

def demoDevice1 : Device := ⟨1, "alpha", 1, none, 7, .Active⟩

def demoDevice2 : Device := ⟨2, "beta", 1, none, 9, .Inactive⟩

def demoCatalog : Catalog :=
  { devices := [demoDevice1, demoDevice2]
    firmwares := []
    device_keys := []
    lightweight_key_details := []
    tls_key_details := []
    next_key_id := 1
    next_lw_id := 1 }

def demoConfig : CborApiConfig := ⟨"/data"⟩

/-- Firmware catalog for the GetFirmware scenarios: firmware 3 stored at
`/data/firmware/f.bin` with 1100 bytes of content. -/
def fwContent : List Nat := List.replicate 1100 7

def fwCatalog : Catalog :=
  { devices := []
    firmwares := [⟨3, "fw", "1.0", "f", 1100, "hash"⟩]
    device_keys := []
    lightweight_key_details := []
    tls_key_details := []
    next_key_id := 1
    next_lw_id := 1 }

def fwFiles : Files := [("/data/firmware/f.bin", fwContent)]

/-- GetFirmwareRequest `array(3, 3, 0, 1100)`. -/
def fwReq : List Nat := encHead 4 3 ++ encHead 0 3 ++ encHead 0 0 ++ encHead 0 1100

/-- The complete CBOR encoding of
`array(4, firmware_id = 3, offset = 0, length = 1100, data = fwContent)`. -/
def fwCompleteResponse : List Nat :=
  encHead 4 4 ++ encHead 0 3 ++ encHead 0 0 ++ encHead 0 1100 ++
  (encHead 2 fwContent.length ++ fwContent)

/-! ## Claim theorems -/

/-- C1 (counterexample): with devices 1 and 2 in the catalog, a
GetDeviceInfoRequest arriving in an envelope for device 1 but carrying
`device_id = 2` in its plaintext is answered with device 2's information
(desired firmware 9, status INACTIVE), not device 1's (desired firmware
7, status ACTIVE) and not DeviceNotFound — so the handler does not look
up the device by the envelope's id. -/
theorem get_device_info_envelope_id_counterexample :
    (handle_operation demoConfig demoCatalog [] 1 6 (encHead 4 1 ++ encHead 0 2)).2 =
      (7, encode_get_device_info_response ⟨none, 9, 1⟩) ∧
    encode_get_device_info_response (⟨none, 9, 1⟩ : GetDeviceInfoResponse) ≠
      encode_get_device_info_response ⟨none, 7, 0⟩ ∧
    (handle_operation demoConfig demoCatalog [] 1 6 (encHead 4 1 ++ encHead 0 2)).2 ≠
      handle_error_operation .DeviceNotFound := by
  refine ⟨rfl, by decide, by decide⟩

/-- C1 (amended): the GetDeviceInfoRequest handler looks up the device
by the `device_id` field inside the request plaintext and never reads the
envelope's device id: the handler's result for opcode 6 is the same for
any two envelope device ids. -/
theorem get_device_info_ignores_envelope_id (config : CborApiConfig) (st : Catalog)
    (files : Files) (d1 d2 : Nat) (operation : List Nat) :
    handle_operation config st files d1 6 operation =
      handle_operation config st files d2 6 operation := rfl

/-- C2 (counterexample): an otherwise-valid envelope whose protected
header omits the critical-headers entry (a 4-entry map) is accepted by
`decode_msg`, returning the decrypted plaintext — it is not rejected with
`MissingHeaderField`. -/
theorem envelope_without_critical_headers_accepted :
    decode_msg (static_key_provider 42 .AesGcm128 demoKey) envelopeNoCrit =
      .ok ⟨.AesGcm128, 42, 6, demoPlain⟩ ∧
    decode_msg (static_key_provider 42 .AesGcm128 demoKey) envelopeNoCrit ≠
      .error .MissingHeaderField := by
  refine ⟨rfl, by decide⟩

/-- C2 (amended): envelope decoding requires only four protected-header
fields — device id, opcode, algorithm and nonce: `ProtectedHeader`
construction fails with `MissingHeaderField` exactly when one of those
four is absent, and succeeds exactly when all four are present; the
critical-headers entry is validated when present but its absence is not
an error (see the counterexample). -/
theorem envelope_requires_four_header_fields (src : ProtectedHeaderDecode) :
    (ProtectedHeader.try_from src = .error .MissingHeaderField ↔
      src.device_id = none ∨ src.opcode = none ∨
      src.encryption_algorithm = none ∨ src.nonce = none) ∧
    ((∃ ph, ProtectedHeader.try_from src = .ok ph) ↔
      src.device_id ≠ none ∧ src.opcode ≠ none ∧
      src.encryption_algorithm ≠ none ∧ src.nonce ≠ none) := by
  rcases src with ⟨d, o, a, n⟩
  cases d <;> cases o <;> cases a <;> cases n <;>
    simp [ProtectedHeader.try_from]

/-- C3 (code bug): `create_device_key` rejects a 16-byte AES-GCM-128 key
with BAD_REQUEST and accepts a 12-byte one, yet the AES-GCM-128 AEAD
primitive (`CryptoAes128Gcm`) requires exactly 16 key bytes: the accepted
12-byte key fails every encrypt call with a key-length error, while the
rejected 16-byte key is the one the primitive accepts. -/
theorem aes_key_length_check_contradicts_aead :
    create_device_key demoCatalog 1 (.Lightweight ⟨.AesGcm128, demoKey⟩) =
      .error .BadRequest ∧
    (∃ r, create_device_key demoCatalog 1 (.Lightweight ⟨.AesGcm128, demoKey12⟩) = .ok r) ∧
    CryptoAes128Gcm.encrypt demoKey12 demoNonce12 [] [1] = .error .KeyError ∧
    (∃ ct, CryptoAes128Gcm.encrypt demoKey demoNonce12 [] [1] = .ok ct) := by
  refine ⟨rfl, ⟨_, rfl⟩, rfl, ⟨_, rfl⟩⟩

/-- C5 (code bug): a GetFirmwareRequest for 1100 bytes (well under the
1 MiB limit) of an existing 1100-byte firmware blob yields opcode 11, but
the returned plaintext is only the first 9 bytes of the response — the
1100 data bytes do not fit the encoder's fixed 1024-byte cursor, whose
write error is discarded — instead of the complete 1109-byte CBOR
encoding of `array(4, 3, 0, 1100, data)`. -/
theorem get_firmware_response_truncated :
    (handle_operation demoConfig fwCatalog fwFiles 42 10 fwReq).2 =
      (11, [0x84, 0x03, 0x00, 0x19, 0x04, 0x4c, 0x59, 0x04, 0x4c]) ∧
    fwCompleteResponse.length = 1109 ∧
    (handle_operation demoConfig fwCatalog fwFiles 42 10 fwReq).2.2 ≠ fwCompleteResponse := by
  refine ⟨rfl, rfl, by decide⟩

/-- A catalog with one ACTIVE LIGHTWEIGHT AES-GCM-128 key for device 42. -/
def demoPool : Catalog :=
  { devices := []
    firmwares := []
    device_keys := [⟨1, 42, .LIGHTWEIGHT, .ACTIVE⟩]
    lightweight_key_details := [⟨1, 1, .AesGcm128, demoKey⟩]
    tls_key_details := []
    next_key_id := 2
    next_lw_id := 2 }

/-- A valid envelope for device 42, opcode 6, encrypted under `demoKey`
with nonce `demoNonce12`. -/
def demoEnvelope : List Nat :=
  (encode_msg (static_key_provider 42 .AesGcm128 demoKey) .AesGcm128 42 6 demoPlain
    demoNonce12).toOption.getD []

def demoHandlerAfterDecode : CoseHandler :=
  ⟨demoPool, some 42, some demoKey, some .AesGcm128⟩

def demoDecoded : DecodedMsg := ⟨.AesGcm128, 42, 6, demoPlain⟩

/-- C6: the response envelope is encrypted with exactly the key bytes the
`DbKeyProvider` resolved during decode: after a successful
`CoseHandler::decode_msg` the retained key bytes are the catalog
resolution at decode time, and `CoseHandler::encode_msg` is unchanged
under replacing the catalog by any other — there is no second catalog
lookup, so a key rotation between decode and encode cannot change the
reply's key. -/
theorem response_key_fixed_at_decode (pool pool2 : Catalog) (msg : List Nat)
    (h : CoseHandler) (res : DecodedMsg) (opr : Nat) (operation nonce : List Nat)
    (hdec : (CoseHandler.new pool).decodeMsg msg = .ok (h, res)) :
    (∃ k, db_key_for_device pool res.device_id res.key_type = .ok k ∧
      h.key_bytes = some k) ∧
    CoseHandler.encodeMsg { h with shared_pool := pool2 } opr operation nonce =
      CoseHandler.encodeMsg h opr operation nonce := by
  simp only [CoseHandler.decodeMsg, CoseHandler.new] at hdec
  repeat' split at hdec
  all_goals first
  | exact Except.noConfusion hdec
  | (rw [Except.ok.injEq, Prod.mk.injEq] at hdec
     obtain ⟨hh, hr⟩ := hdec
     subst hh
     subst hr
     exact ⟨⟨_, by assumption, rfl⟩, rfl⟩)

/-- C6 (witness): decoding `demoEnvelope` against `demoPool` retains
`demoKey`, and swapping the catalog for `fwCatalog` before encoding does
not change the encoded response. -/
theorem response_key_fixed_at_decode_witness :
    (∃ k, db_key_for_device demoPool demoDecoded.device_id demoDecoded.key_type = .ok k ∧
      demoHandlerAfterDecode.key_bytes = some k) ∧
    CoseHandler.encodeMsg { demoHandlerAfterDecode with shared_pool := fwCatalog } 7 [1]
        demoNonce12 =
      CoseHandler.encodeMsg demoHandlerAfterDecode 7 [1] demoNonce12 :=
  response_key_fixed_at_decode demoPool fwCatalog demoEnvelope demoHandlerAfterDecode
    demoDecoded 7 [1] demoNonce12 rfl

/-- Per-device key-status invariant: at most one ACTIVE and at most one
NEXT `DeviceKey` row per device. -/
def keyInvariant (st : Catalog) : Prop :=
  ∀ d : Int,
    st.device_keys.countP (fun k => decide (k.device = d ∧ k.status = KeyStatus.ACTIVE)) ≤ 1 ∧
    st.device_keys.countP (fun k => decide (k.device = d ∧ k.status = KeyStatus.NEXT)) ≤ 1

/-- Success characterization of `create_device_key`: the new `device_key`
row is appended with the serial id, LIGHTWEIGHT type, and status ACTIVE
exactly when no ACTIVE key existed; no NEXT key existed. -/
theorem create_device_key_ok (st st' : Catalog) (d : Int) (payload : NewDeviceKeyKind)
    (out : DeviceKeyPayload)
    (h : create_device_key st d payload = .ok (st', out)) :
    st.device_keys.any (fun k => decide (k.device = d ∧ k.status = KeyStatus.NEXT)) = false ∧
    st'.device_keys = st.device_keys ++
      [⟨st.next_key_id, d, Db.KeyType.LIGHTWEIGHT,
        if st.device_keys.any (fun k => decide (k.device = d ∧ k.status = KeyStatus.ACTIVE))
        then KeyStatus.NEXT else KeyStatus.ACTIVE⟩] ∧
    out.status =
      (if st.device_keys.any (fun k => decide (k.device = d ∧ k.status = KeyStatus.ACTIVE))
       then KeyStatus.NEXT else KeyStatus.ACTIVE) := by
  simp only [create_device_key] at h
  repeat' split at h
  all_goals first
  | exact Except.noConfusion h
  | (rw [Except.ok.injEq, Prod.mk.injEq] at h
     obtain ⟨h1, h2⟩ := h
     subst h1
     subst h2
     refine ⟨by simp_all, ?_, ?_⟩ <;>
       (simp_all
        all_goals
          (rw [if_neg]
           rintro ⟨x, hx, hdd, hs⟩
           exact ‹∀ x ∈ st.device_keys, x.device = d → ¬x.status = KeyStatus.ACTIVE›
             x hx hdd hs)))

/-- Success characterization of `delete_device_key`: the surviving
`device_key` rows are those whose id differs from the deleted one. -/
theorem delete_device_key_ok (st st' : Catalog) (d pid : Int) (out : DeviceKeyPayload)
    (h : delete_device_key st d pid = .ok (st', out)) :
    st'.device_keys = st.device_keys.filter (fun k => decide (k.id ≠ pid)) := by
  simp only [delete_device_key] at h
  repeat' split at h
  all_goals first
  | exact Except.noConfusion h
  | (rw [Except.ok.injEq, Prod.mk.injEq] at h
     obtain ⟨h1, h2⟩ := h
     subst h1
     rfl)

theorem create_conflict_aux (st : Catalog) (d : Int)
    (hnext : st.device_keys.any
      (fun k => decide (k.device = d ∧ k.status = KeyStatus.NEXT)) = true) :
    ¬(∀ x ∈ st.device_keys, x.device = d → ¬x.status = KeyStatus.NEXT) := by
  intro hforall
  obtain ⟨x, hx, hpx⟩ := List.any_eq_true.mp hnext
  rw [decide_eq_true_eq] at hpx
  exact absurd hpx.2 (hforall x hx hpx.1)

theorem delete_conflict_aux (st : Catalog) (d pid : Int)
    (hact : st.device_keys.any
      (fun k => decide (k.id = pid ∧ k.device = d ∧ k.status = KeyStatus.ACTIVE)) = true) :
    ¬(∀ x ∈ st.device_keys, x.id = pid → x.device = d → ¬x.status = KeyStatus.ACTIVE) := by
  intro hforall
  obtain ⟨x, hx, hpx⟩ := List.any_eq_true.mp hact
  rw [decide_eq_true_eq] at hpx
  exact absurd hpx.2.2 (hforall x hx hpx.1 hpx.2.1)

theorem countP_zero_of_any_false {A : Type} (p : A → Bool) (l : List A)
    (h : l.any p = false) : l.countP p = 0 :=
  List.countP_eq_zero.mpr (fun a ha => by
    have := List.any_eq_false.mp h a ha
    simpa using this)

theorem countP_append_singleton {A : Type} (p : A → Bool) (l : List A) (x : A) :
    (l ++ [x]).countP p = l.countP p + (if p x then 1 else 0) := by
  rw [List.countP_append]
  simp [List.countP_cons]

/-- A catalog holding a NEXT LIGHTWEIGHT key for device 1 and no other
keys. -/
def nextKeyCatalog : Catalog :=
  { demoCatalog with
    device_keys := [⟨1, 1, .LIGHTWEIGHT, .NEXT⟩]
    lightweight_key_details := [⟨1, 1, .AsconAead128, demoKey⟩]
    next_key_id := 2
    next_lw_id := 2 }

/-- C7 (counterexample): creation is not always rejected with Conflict
when a NEXT key exists — `create_device_key` validates the key length
before the NEXT-key check, so with a NEXT key present on device 1 a
creation request whose key length fails the source's validation (a
16-byte AES-GCM-128 key, which the admin path rejects) returns
BadRequest, not Conflict. -/
theorem create_conflict_counterexample :
    nextKeyCatalog.device_keys.any
      (fun k => decide (k.device = 1 ∧ k.status = KeyStatus.NEXT)) = true ∧
    create_device_key nextKeyCatalog 1 (.Lightweight ⟨.AesGcm128, demoKey⟩) =
      .error .BadRequest ∧
    create_device_key nextKeyCatalog 1 (.Lightweight ⟨.AesGcm128, demoKey⟩) ≠
      .error .Conflict := by
  refine ⟨rfl, rfl, by decide⟩

/-- C7 (amended): starting from any catalog in which each device has at
most one ACTIVE and at most one NEXT key, `create_device_key` and
`delete_device_key` preserve the invariant; when a NEXT key exists,
creation is rejected — with Conflict for every payload that passes the
key-length validation, and with BadRequest otherwise, since the source
validates the length first; the created key is ACTIVE exactly when no
ACTIVE key existed and NEXT otherwise, and deletion of an ACTIVE key is
rejected with Conflict. -/
theorem key_lifecycle_invariant (st : Catalog) (d pid : Int) (payload : NewDeviceKeyKind)
    (stc std : Catalog) (outc outd : DeviceKeyPayload)
    (hinv : keyInvariant st) :
    (create_device_key st d payload = .ok (stc, outc) →
      keyInvariant stc ∧
      outc.status =
        (if st.device_keys.any (fun k => decide (k.device = d ∧ k.status = KeyStatus.ACTIVE))
         then KeyStatus.NEXT else KeyStatus.ACTIVE)) ∧
    (st.device_keys.any (fun k => decide (k.device = d ∧ k.status = KeyStatus.NEXT)) = true →
      create_device_key st d payload ≠ .error .BadRequest →
      create_device_key st d payload = .error .Conflict) ∧
    (delete_device_key st d pid = .ok (std, outd) → keyInvariant std) ∧
    (st.device_keys.any
        (fun k => decide (k.id = pid ∧ k.device = d ∧ k.status = KeyStatus.ACTIVE)) = true →
      delete_device_key st d pid = .error .Conflict) := by
  refine ⟨?_, ?_, ?_, ?_⟩
  · intro hok
    obtain ⟨hnext, hkeys, hstatus⟩ := create_device_key_ok st stc d payload outc hok
    refine ⟨?_, hstatus⟩
    intro d2
    obtain ⟨hA, hN⟩ := hinv d2
    rw [hkeys]
    constructor
    · by_cases hact : (st.device_keys.any
          (fun k => decide (k.device = d ∧ k.status = KeyStatus.ACTIVE))) = true
      · rw [if_pos hact, countP_append_singleton]
        simpa using hA
      · rw [if_neg hact, countP_append_singleton]
        by_cases hd : d = d2
        · subst hd
          have h0 := countP_zero_of_any_false
            (fun k => decide (k.device = d ∧ k.status = KeyStatus.ACTIVE)) st.device_keys
            ((Bool.not_eq_true _) ▸ hact)
          rw [h0]
          simp
        · simpa [hd] using hA
    · by_cases hact : (st.device_keys.any
          (fun k => decide (k.device = d ∧ k.status = KeyStatus.ACTIVE))) = true
      · rw [if_pos hact, countP_append_singleton]
        by_cases hd : d = d2
        · subst hd
          have h0 := countP_zero_of_any_false
            (fun k => decide (k.device = d ∧ k.status = KeyStatus.NEXT)) st.device_keys hnext
          rw [h0]
          simp
        · simpa [hd] using hN
      · rw [if_neg hact, countP_append_singleton]
        simpa using hN
  · intro hnext hnb
    unfold create_device_key at hnb ⊢
    rcases payload with ⟨alg, key⟩ | det
    · cases alg
      · by_cases hk : key.length = 12
        · simp [hk, hnext]
          exact fun hforall => absurd hforall (create_conflict_aux st d hnext)
        · exact absurd (by simp [hk]) hnb
      · by_cases hk : key.length = 16
        · simp [hk, hnext]
          exact fun hforall => absurd hforall (create_conflict_aux st d hnext)
        · exact absurd (by simp [hk]) hnb
    · simp [hnext]
      exact fun hforall => absurd hforall (create_conflict_aux st d hnext)
  · intro hok
    have hkeys := delete_device_key_ok st std d pid outd hok
    intro d2
    obtain ⟨hA, hN⟩ := hinv d2
    rw [hkeys]
    exact ⟨le_trans ((List.filter_sublist _).countP_le _) hA,
      le_trans ((List.filter_sublist _).countP_le _) hN⟩
  · intro hact
    unfold delete_device_key
    simp [hact]
    exact fun hforall => absurd hforall (delete_conflict_aux st d pid hact)

/-- The catalog and payload resulting from provisioning the first
Ascon-AEAD-128 key for device 1 of `demoCatalog`. -/
def createdCatalog : Catalog :=
  { demoCatalog with
    device_keys := [⟨1, 1, .LIGHTWEIGHT, .ACTIVE⟩]
    lightweight_key_details := [⟨1, 1, .AsconAead128, demoKey⟩]
    next_key_id := 2
    next_lw_id := 2 }

def createdPayload : DeviceKeyPayload :=
  ⟨1, .ACTIVE, .Lightweight ⟨.AsconAead128, demoKey⟩⟩

/-- C7 (witness): on a catalog with devices but no keys the invariant
holds, and all four conjuncts apply to creating an Ascon-AEAD-128 key for
device 1 and deleting key 1. -/
theorem key_lifecycle_invariant_witness :
    (create_device_key demoCatalog 1 (.Lightweight ⟨.AsconAead128, demoKey⟩) =
        .ok (createdCatalog, createdPayload) →
      keyInvariant createdCatalog ∧
      createdPayload.status =
        (if demoCatalog.device_keys.any
            (fun k => decide (k.device = 1 ∧ k.status = KeyStatus.ACTIVE))
         then KeyStatus.NEXT else KeyStatus.ACTIVE)) ∧
    (demoCatalog.device_keys.any
        (fun k => decide (k.device = 1 ∧ k.status = KeyStatus.NEXT)) = true →
      create_device_key demoCatalog 1 (.Lightweight ⟨.AsconAead128, demoKey⟩) ≠
        .error .BadRequest →
      create_device_key demoCatalog 1 (.Lightweight ⟨.AsconAead128, demoKey⟩) =
        .error .Conflict) ∧
    (delete_device_key demoCatalog 1 1 = .ok (createdCatalog, createdPayload) →
      keyInvariant createdCatalog) ∧
    (demoCatalog.device_keys.any
        (fun k => decide (k.id = 1 ∧ k.device = 1 ∧ k.status = KeyStatus.ACTIVE)) = true →
      delete_device_key demoCatalog 1 1 = .error .Conflict) :=
  key_lifecycle_invariant demoCatalog 1 1 (.Lightweight ⟨.AsconAead128, demoKey⟩)
    createdCatalog createdCatalog createdPayload createdPayload
    (fun _ => by simp [demoCatalog])

/-- C8: when envelope decode-and-decrypt fails, the datagram-loop
iteration produces no response and leaves the catalog untouched — the
operation handler and the response path are never reached. -/
theorem dropped_on_decode_failure (config : CborApiConfig) (pool : Catalog) (files : Files)
    (datagram nonce : List Nat) (e : CoseHandlerError)
    (hdec : (CoseHandler.new pool).decodeMsg datagram = .error e) :
    udp_iteration config pool files datagram nonce = (pool, none) := by
  unfold udp_iteration
  rw [hdec]

/-- C8 (witness): the empty datagram fails envelope decoding and is
dropped without a response. -/
theorem dropped_on_decode_failure_witness :
    udp_iteration demoConfig demoCatalog [] [] demoNonce12 = (demoCatalog, none) :=
  dropped_on_decode_failure demoConfig demoCatalog [] [] demoNonce12 .DecodingError rfl

/-- When row ids are unique, replacing every id-matching row by the
update of the row `find?` located is the same as updating each
id-matching row in place. -/
theorem map_update_of_find (l : List Device) (t : Int) (row : Device) (g : Device → Device)
    (hpk : l.Pairwise (fun a b => a.id ≠ b.id))
    (hfind : l.find? (fun x => decide (x.id = t)) = some row) :
    l.map (fun x => if x.id = t then g row else x) =
      l.map (fun x => if x.id = t then g x else x) := by
  induction l with
  | nil => simp at hfind
  | cons a l ih =>
    rw [List.pairwise_cons] at hpk
    obtain ⟨hpa, hpl⟩ := hpk
    by_cases ha : a.id = t
    · rw [List.find?_cons_of_pos _ (by simpa using ha)] at hfind
      rw [Option.some.injEq] at hfind
      subst hfind
      simp only [List.map_cons, if_pos ha]
      have htail : ∀ p : Device → Device,
          l.map (fun x => if x.id = t then p x else x) = l.map id := by
        intro p
        apply List.map_congr_left
        intro x hx
        have : x.id ≠ t := by
          intro hxt
          exact (hpa x hx).symm (hxt.trans ha.symm)
        simp [this]
      rw [htail (fun _ => g a), htail g]
    · rw [List.find?_cons_of_neg _ (by simpa using ha)] at hfind
      simp only [List.map_cons, if_neg ha]
      rw [ih hpl hfind]

/-- C10: a successfully applied SetDeviceInfoRequest changes only the
firmware and status columns of the addressed device row (under
primary-key uniqueness of device ids): the resulting catalog is the old
one with exactly those two fields overwritten on that row, every other
device row and every other table unchanged. -/
theorem set_device_info_frame (config : CborApiConfig) (st : Catalog) (files : Files)
    (dev : Nat) (operation : List Nat) (st2 : Catalog) (resp : Nat × List Nat)
    (hpk : st.devices.Pairwise (fun a b => a.id ≠ b.id))
    (hrun : handle_operation config st files dev 8 operation = (st2, resp))
    (hok : resp.1 = 9) :
    ∃ f s, st2 =
      { st with devices :=
          st.devices.map (fun row =>
            if row.id = i32ofU32 dev
            then { row with firmware := (some f), status := s }
            else row) } := by
  unfold handle_operation at hrun
  norm_num [OperationType.fromU16] at hrun
  repeat' split at hrun
  all_goals
    (rw [Prod.mk.injEq] at hrun
     obtain ⟨h1, h2⟩ := hrun)
  all_goals
    try (rw [← h2] at hok
         exact absurd hok (by decide))
  rename_i a3 req hdec a4 ds hds a5 stX resultRow hupd a6 fw hfw
  subst h1
  simp only [updateDeviceFind] at hupd
  repeat' split at hupd
  all_goals
    try exact Except.noConfusion hupd
  rename_i row hfind hfk
  rw [Except.ok.injEq, Prod.mk.injEq] at hupd
  obtain ⟨hst, hrow⟩ := hupd
  refine ⟨i32ofU32 req.firmware, ds, ?_⟩
  rw [← hst]
  have hg : applyUpdateDevice row
      { name := none, type_ := none, firmware := some (i32ofU32 req.firmware),
        desired_firmware := none, status := some ds } =
      { row with firmware := (some (i32ofU32 req.firmware)), status := ds } := rfl
  simp only [hg]
  rw [map_update_of_find st.devices (i32ofU32 dev) row
    (fun x => { x with firmware := (some (i32ofU32 req.firmware)), status := ds }) hpk hfind]

/-- Catalog for the C10 witness: device 5 with desired firmware 7 and an
existing firmware row 7. -/
def setCatalog : Catalog :=
  { devices := [⟨5, "gamma", 1, none, 7, .Active⟩]
    firmwares := [⟨7, "fw", "1.0", "g", 10, "h"⟩]
    device_keys := []
    lightweight_key_details := []
    tls_key_details := []
    next_key_id := 1
    next_lw_id := 1 }

/-- SetDeviceInfoRequest `array(2, firmware = 7, status = 2)`. -/
def setOp : List Nat := encHead 4 2 ++ encHead 0 7 ++ encHead 0 2

/-- C10 (witness): applying `setOp` to device 5 of `setCatalog` changes
only that row's firmware and status. -/
theorem set_device_info_frame_witness :
    ∃ f s,
      ({ setCatalog with devices := [⟨5, "gamma", 1, some 7, 7, .Maintenance⟩] } : Catalog) =
      { setCatalog with devices :=
          setCatalog.devices.map (fun row =>
            if row.id = i32ofU32 5
            then { row with firmware := (some f), status := s }
            else row) } :=
  set_device_info_frame demoConfig setCatalog [] 5 setOp
    { setCatalog with devices := [⟨5, "gamma", 1, some 7, 7, .Maintenance⟩] }
    (9, encode_set_device_info_response ⟨7, 7, 2⟩)
    (by decide) (by decide) rfl

/-! ## C4: encode/decode round trip -/

theorem fromU16_one : ProtectedHeaderKey.fromU16 1 = .EncryptionAlgorithm := rfl

theorem fromU16_two : ProtectedHeaderKey.fromU16 2 = .CriticalHeaderList := rfl

theorem fromU16_five : ProtectedHeaderKey.fromU16 5 = .EncryptionNonce := rfl

theorem fromU16_deviceId : ProtectedHeaderKey.fromU16 8608 = .DeviceId := rfl

theorem fromU16_opcode : ProtectedHeaderKey.fromU16 8633 = .Opcode := rfl

theorem encHead_length_le (m n : Nat) : (encHead m n).length ≤ 9 := by
  unfold encHead beBytes8 beBytes4 beBytes2
  split_ifs <;> simp

theorem aeadCoreEncrypt_length (key nonce aad pt : List Nat) :
    (aeadCoreEncrypt key nonce aad pt).length = pt.length + 16 := by
  simp [aeadCoreEncrypt, aeadTag_length]

theorem decodeBytes_encHead_nil (l : List Nat) (hl : l.length < 2 ^ 64) :
    decodeBytes (encHead 2 l.length ++ l) = some (l, []) := by
  have h := decodeBytes_encHead l [] hl
  rwa [List.append_nil] at h

theorem decodePHEntry_dev (hdr : ProtectedHeaderDecode) (v : Nat) (r : List Nat)
    (hv : v ≤ 0xffffffff) :
    decodePHEntry hdr (encHead 0 8608 ++ (encHead 0 v ++ r)) =
      .ok ({ hdr with device_id := some v }, r) := by
  unfold decodePHEntry
  rw [decodeU16_encHead 8608 _ (by norm_num)]
  dsimp only
  rw [fromU16_deviceId]
  dsimp only
  rw [decodeU32_encHead v _ hv]

theorem decodePHEntry_op (hdr : ProtectedHeaderDecode) (v : Nat) (r : List Nat)
    (hv : v ≤ 0xffff) :
    decodePHEntry hdr (encHead 0 8633 ++ (encHead 0 v ++ r)) =
      .ok ({ hdr with opcode := some v }, r) := by
  unfold decodePHEntry
  rw [decodeU16_encHead 8633 _ (by norm_num)]
  dsimp only
  rw [fromU16_opcode]
  dsimp only
  rw [decodeU16_encHead v _ hv]

theorem decodePHEntry_alg (hdr : ProtectedHeaderDecode) (a : CoseAlgorithmIdentifier)
    (r : List Nat) (ha : a ≠ .Unknown) :
    decodePHEntry hdr (encHead 0 1 ++ (encHead 0 a.toU16 ++ r)) =
      .ok ({ hdr with encryption_algorithm := some a }, r) := by
  unfold decodePHEntry
  rw [decodeU16_encHead 1 _ (by norm_num)]
  dsimp only
  rw [fromU16_one]
  dsimp only
  cases a
  · rw [decodeU16_encHead _ _ (by norm_num [CoseAlgorithmIdentifier.toU16])]
    rfl
  · rw [decodeU16_encHead _ _ (by norm_num [CoseAlgorithmIdentifier.toU16])]
    rfl
  · exact absurd rfl ha

theorem decodePHEntry_nonce (hdr : ProtectedHeaderDecode) (nn r : List Nat)
    (hn : nn.length < 2 ^ 64) :
    decodePHEntry hdr (encHead 0 5 ++ (encHead 2 nn.length ++ (nn ++ r))) =
      .ok ({ hdr with nonce := some nn }, r) := by
  unfold decodePHEntry
  rw [decodeU16_encHead 5 _ (by norm_num)]
  dsimp only
  rw [fromU16_five]
  dsimp only
  rw [decodeBytes_encHead nn r hn]

theorem decodeCritEntries_succ (k : Nat) (bs : List Nat) :
    decodePHEntry.decodeCritEntries (k + 1) bs =
      match decodeU16 bs with
      | none => .error .InvalidMessage
      | some (header_id, bs) =>
        match ProtectedHeaderKey.fromU16 header_id with
        | .DeviceId => decodePHEntry.decodeCritEntries k bs
        | .Opcode => decodePHEntry.decodeCritEntries k bs
        | _ => .error .UnknownCriticalHeader := rfl

theorem decodeCritEntries_two :
    decodePHEntry.decodeCritEntries 2 (encHead 0 8608 ++ encHead 0 8633) = .ok [] := by
  rw [show (2 : Nat) = 1 + 1 from rfl, decodeCritEntries_succ]
  rw [decodeU16_encHead 8608 _ (by norm_num)]
  dsimp only
  rw [fromU16_deviceId]
  dsimp only
  rw [show (1 : Nat) = 0 + 1 from rfl, decodeCritEntries_succ]
  rw [show encHead 0 8633 = encHead 0 8633 ++ ([] : List Nat) from (List.append_nil _).symm,
    decodeU16_encHead 8633 _ (by norm_num)]
  dsimp only
  rw [fromU16_opcode]
  rfl

theorem decodePHEntry_crit (hdr : ProtectedHeaderDecode) :
    decodePHEntry hdr (encHead 0 2 ++ (encHead 4 2 ++ (encHead 0 8608 ++ encHead 0 8633))) =
      .ok (hdr, []) := by
  unfold decodePHEntry
  rw [decodeU16_encHead 2 _ (by norm_num)]
  dsimp only
  rw [fromU16_two]
  dsimp only
  rw [decodeArrayHead_encHead 2 _ (by norm_num)]
  dsimp only
  rw [decodeCritEntries_two]

theorem decodePHEntries_succ (k : Nat) (hdr : ProtectedHeaderDecode) (bs : List Nat) :
    decodePHEntries (k + 1) hdr bs =
      match decodePHEntry hdr bs with
      | .error e => .error e
      | .ok (hdr2, bs2) => decodePHEntries k hdr2 bs2 := rfl

theorem decodePHEntries_five (h0 h1 h2 h3 h4 h5 : ProtectedHeaderDecode)
    (bs0 bs1 bs2 bs3 bs4 bs5 : List Nat)
    (e1 : decodePHEntry h0 bs0 = .ok (h1, bs1))
    (e2 : decodePHEntry h1 bs1 = .ok (h2, bs2))
    (e3 : decodePHEntry h2 bs2 = .ok (h3, bs3))
    (e4 : decodePHEntry h3 bs3 = .ok (h4, bs4))
    (e5 : decodePHEntry h4 bs4 = .ok (h5, bs5)) :
    decodePHEntries 5 h0 bs0 = .ok (h5, bs5) := by
  rw [show (5 : Nat) = 4 + 1 from rfl, decodePHEntries_succ, e1]
  dsimp only
  rw [show (4 : Nat) = 3 + 1 from rfl, decodePHEntries_succ, e2]
  dsimp only
  rw [show (3 : Nat) = 2 + 1 from rfl, decodePHEntries_succ, e3]
  dsimp only
  rw [show (2 : Nat) = 1 + 1 from rfl, decodePHEntries_succ, e4]
  dsimp only
  rw [show (1 : Nat) = 0 + 1 from rfl, decodePHEntries_succ, e5]
  rfl

theorem encode_protected_header_length_le (ph : ProtectedHeader) :
    (encode_protected_header ph).length ≤ ph.nonce.length + 117 := by
  unfold encode_protected_header
  simp only [List.length_append]
  have l1 := encHead_length_le 5 5
  have l2 := encHead_length_le 0 1
  have l3 := encHead_length_le 0 ph.encryption_algorithm.toU16
  have l4 := encHead_length_le 0 8608
  have l5 := encHead_length_le 0 ph.device_id
  have l6 := encHead_length_le 0 8633
  have l7 := encHead_length_le 0 ph.opcode
  have l8 := encHead_length_le 0 5
  have l9 := encHead_length_le 2 ph.nonce.length
  have l10 := encHead_length_le 0 2
  have l11 := encHead_length_le 4 2
  omega

theorem decode_protected_header_encode (ph : ProtectedHeader)
    (hdev : ph.device_id ≤ 0xffffffff) (hop : ph.opcode ≤ 0xffff)
    (halg : ph.encryption_algorithm ≠ .Unknown) (hnn : ph.nonce.length < 2 ^ 64) :
    decode_protected_header (encode_protected_header ph) =
      .ok ⟨some ph.device_id, some ph.opcode, some ph.encryption_algorithm, some ph.nonce⟩ := by
  unfold decode_protected_header encode_protected_header
  simp only [List.append_assoc]
  rw [decodeMapHead_encHead 5 _ (by norm_num)]
  dsimp only
  rw [decodePHEntries_five _ _ _ _ _ _ _ _ _ _ _ _
    (decodePHEntry_alg _ _ _ halg)
    (decodePHEntry_dev _ _ _ hdev)
    (decodePHEntry_op _ _ _ hop)
    (decodePHEntry_nonce _ _ _ hnn)
    (decodePHEntry_crit _)]

/-- C4: for every device id, opcode, plaintext and algorithm (AES-GCM-128
or Ascon-AEAD-128), if the key provider resolves the device and algorithm
to the same valid 16-byte key at both calls, decoding a message produced
by `encode_msg` returns exactly the original plaintext, device id and
opcode and reports the algorithm as the resolved key type. -/
theorem encode_decode_roundtrip (kp : KeyProv) (kt : KeyType) (dev op : Nat)
    (pt nonce key out : List Nat)
    (hdev : dev ≤ 0xffffffff) (hop : op ≤ 0xffff)
    (hkp : kp dev kt = .ok key) (hkey : key.length = 16)
    (hnonce : nonce.length = (cryptoAlgFor kt).nonce_len)
    (hpt : pt.length + 16 < 2 ^ 64)
    (henc : encode_msg kp kt dev op pt nonce = .ok out) :
    decode_msg kp out = .ok ⟨kt, dev, op, pt⟩ := by
  cases kt
  case AesGcm128 =>
    unfold encode_msg at henc
    rw [hkp] at henc
    dsimp only [cryptoAlgFor, CryptoAes128Gcm] at henc hnonce
    rw [if_neg (by omega), if_neg (by omega)] at henc
    dsimp only at henc
    rw [Except.ok.injEq] at henc
    subst henc
    unfold decode_msg
    simp only [List.append_assoc]
    rw [decodeArrayHead_encHead 3 _ (by norm_num)]
    dsimp only
    rw [if_neg (not_not_intro rfl)]
    have hphlen : (encode_protected_header
        ⟨dev, op, CoseAlgorithmIdentifier.AesGcm128, nonce⟩).length < 2 ^ 64 := by
      have hb := encode_protected_header_length_le
        ⟨dev, op, CoseAlgorithmIdentifier.AesGcm128, nonce⟩
      dsimp only at hb
      omega
    rw [decodeBytes_encHead _ _ hphlen]
    dsimp only
    rw [decode_protected_header_encode ⟨dev, op, CoseAlgorithmIdentifier.AesGcm128, nonce⟩
      hdev hop (by intro h; exact CoseAlgorithmIdentifier.noConfusion h)
      (by dsimp only; omega)]
    dsimp only [ProtectedHeader.try_from, cryptoAlgFor, CryptoAes128Gcm]
    rw [if_neg (by omega)]
    rw [decodeMapHead_encHead 0 _ (by norm_num)]
    dsimp only
    rw [if_neg (not_not_intro rfl)]
    have hctlen : (aeadCoreEncrypt key nonce (create_aad (encode_protected_header
        ⟨dev, op, CoseAlgorithmIdentifier.AesGcm128, nonce⟩)) pt).length < 2 ^ 64 := by
      rw [aeadCoreEncrypt_length]
      omega
    rw [decodeBytes_encHead_nil _ hctlen]
    dsimp only
    rw [if_neg (by rw [aeadCoreEncrypt_length]; omega)]
    rw [hkp]
    dsimp only
    rw [if_neg (by omega), if_neg (by omega)]
    rw [aeadCore_roundtrip]
  case AsconAead128 =>
    unfold encode_msg at henc
    rw [hkp] at henc
    dsimp only [cryptoAlgFor, CryptoAsconAead128] at henc hnonce
    rw [if_neg (by omega), if_neg (by omega)] at henc
    dsimp only at henc
    rw [Except.ok.injEq] at henc
    subst henc
    unfold decode_msg
    simp only [List.append_assoc]
    rw [decodeArrayHead_encHead 3 _ (by norm_num)]
    dsimp only
    rw [if_neg (not_not_intro rfl)]
    have hphlen : (encode_protected_header
        ⟨dev, op, CoseAlgorithmIdentifier.AsconAead128, nonce⟩).length < 2 ^ 64 := by
      have hb := encode_protected_header_length_le
        ⟨dev, op, CoseAlgorithmIdentifier.AsconAead128, nonce⟩
      dsimp only at hb
      omega
    rw [decodeBytes_encHead _ _ hphlen]
    dsimp only
    rw [decode_protected_header_encode ⟨dev, op, CoseAlgorithmIdentifier.AsconAead128, nonce⟩
      hdev hop (by intro h; exact CoseAlgorithmIdentifier.noConfusion h)
      (by dsimp only; omega)]
    dsimp only [ProtectedHeader.try_from, cryptoAlgFor, CryptoAsconAead128]
    rw [if_neg (by omega)]
    rw [decodeMapHead_encHead 0 _ (by norm_num)]
    dsimp only
    rw [if_neg (not_not_intro rfl)]
    have hctlen : (aeadCoreEncrypt key nonce (create_aad (encode_protected_header
        ⟨dev, op, CoseAlgorithmIdentifier.AsconAead128, nonce⟩)) pt).length < 2 ^ 64 := by
      rw [aeadCoreEncrypt_length]
      omega
    rw [decodeBytes_encHead_nil _ hctlen]
    dsimp only
    rw [if_neg (by rw [aeadCoreEncrypt_length]; omega)]
    rw [hkp]
    dsimp only
    rw [if_neg (by omega), if_neg (by omega)]
    rw [aeadCore_roundtrip]

/-- C4 (witness): the round trip holds at device 42, opcode 6, plaintext
`demoPlain`, AES-GCM-128 with `demoKey` and `demoNonce12`, using the
concrete envelope `demoEnvelope`. -/
theorem encode_decode_roundtrip_witness :
    decode_msg (static_key_provider 42 .AesGcm128 demoKey) demoEnvelope =
      .ok ⟨.AesGcm128, 42, 6, demoPlain⟩ :=
  encode_decode_roundtrip (static_key_provider 42 .AesGcm128 demoKey) .AesGcm128 42 6
    demoPlain demoNonce12 demoKey demoEnvelope (by norm_num) (by norm_num) rfl rfl rfl
    (by decide) rfl

end Firmups
